import Mathlib

/-!
Verification of the Study-Planner-Bot core (`planner.py`, `storage.py`).

Shallow embedding conventions:
* Calendar dates (`YYYY-MM-DD` strings in the source) are modelled as integer
  day ordinals (`ℤ`); `date.today()` becomes an explicit `today : ℤ` argument
  threaded through every operation that reads the clock.
* Python floats are modelled as exact rationals (`ℚ`); every float computation
  exercised by a theorem below is exact in binary floating point as well.
* `uuid.uuid4()[:8]` draws are modelled as explicit `String` parameters.
* Fallible Python code (code that can raise) is modelled with `Except String`;
  the error payload names the Python exception class.
* JSON values produced by `json.load` are modelled by the `Json` inductive.
-/

namespace StudyPlannerBot

/-- Model of a JSON value as produced by Python's `json.load`
(numbers collapsed to exact rationals). -/
inductive Json where
  | null
  | bool (b : Bool)
  | num (q : ℚ)
  | str (s : String)
  | arr (xs : List Json)
  | obj (fields : List (String × Json))

/-- Python `l[-n:]`: the last `n` elements of a list (all of them when
`l` is shorter). -/
def pyLastN (l : List α) (n : ℕ) : List α :=
  l.drop (l.length - n)

/-
String primitives are re-implemented over `List Char` with structural
(fuel-based where needed) recursion, so that every concrete evaluation
below reduces inside the kernel.  Semantics match the Python `str`
methods used by the source.
-/

/-- If `pat` is a prefix of `s`, the remainder of `s` after it. -/
def dropPrefixQ : List Char → List Char → Option (List Char)
  | [], s => some s
  | _ :: _, [] => none
  | p :: ps, c :: cs => if p = c then dropPrefixQ ps cs else none

/-- Splitting on every non-overlapping occurrence of `pat` (nonempty),
left to right — the char-list core of Python `s.split(pat)`. -/
def splitOnAuxL (pat : List Char) : ℕ → List Char → List (List Char)
  | 0, s => [s]
  | _ + 1, [] => [[]]
  | fuel + 1, c :: cs =>
      match dropPrefixQ pat (c :: cs) with
      | some rest => [] :: splitOnAuxL pat fuel rest
      | none =>
          match splitOnAuxL pat fuel cs with
          | [] => [[c]]
          | h :: t => (c :: h) :: t

/-- The list of segments of `s` between occurrences of `pat`
(Python `s.split(pat)` for nonempty `pat`). -/
def pySegments (s pat : String) : List String :=
  if pat.toList = [] then [s]
  else (splitOnAuxL pat.toList s.toList.length s.toList).map (fun cs => String.mk cs)

/-- Join a list of strings with a separator. -/
def joinWith (sep : String) : List String → String
  | [] => ""
  | [x] => x
  | x :: xs => x ++ sep ++ joinWith sep xs

/-- Python `pat in s` (substring containment, `pat` nonempty at every
call site). -/
def containsSubstr (s pat : String) : Bool :=
  (pySegments s pat).length > 1

/-- Python `s.split(pat, 1)[-1]`: everything after the first occurrence of
`pat`, or `s` itself when `pat` does not occur. -/
def pyAfterFirst (s pat : String) : String :=
  match pySegments s pat with
  | [] => s
  | [_] => s
  | _ :: rest => joinWith pat rest

/-- Python `s.split(pat, 1)[0]`: everything before the first occurrence. -/
def pyBeforeFirst (s pat : String) : String :=
  match pySegments s pat with
  | [] => s
  | x :: _ => x

/-- Python `s.strip()`. -/
def pyStrip (s : String) : String :=
  String.mk (((s.toList.dropWhile Char.isWhitespace).reverse.dropWhile
    Char.isWhitespace).reverse)

/-- ASCII lower-casing of one character (the inputs below are ASCII; on
them Python `str.lower` agrees). -/
def lowerChar (c : Char) : Char :=
  if 'A' ≤ c ∧ c ≤ 'Z' then Char.ofNat (c.toNat + 32) else c

/-- Python `s.lower()`. -/
def pyLower (s : String) : String :=
  String.mk (s.toList.map lowerChar)

/-- Python `s.startswith(pat)`. -/
def pyStartsWith (s pat : String) : Bool :=
  pat.toList.isPrefixOf s.toList

/-- The char-list core of Python `s.replace(pat, rep)` (nonempty `pat`). -/
def replaceAuxL (pat rep : List Char) : ℕ → List Char → List Char
  | 0, s => s
  | _ + 1, [] => []
  | fuel + 1, c :: cs =>
      match dropPrefixQ pat (c :: cs) with
      | some rest => rep ++ replaceAuxL pat rep fuel rest
      | none => c :: replaceAuxL pat rep fuel cs

/-- Python `s.replace(pat, rep)` for nonempty `pat`. -/
def pyReplace (s pat rep : String) : String :=
  if pat.toList = [] then s
  else String.mk (replaceAuxL pat.toList rep.toList s.toList.length s.toList)

/-- Whitespace tokenisation accumulator. -/
def wsTokensAux (cur : List Char) : List Char → List (List Char)
  | [] => if cur.isEmpty then [] else [cur.reverse]
  | c :: cs =>
      if c.isWhitespace then
        if cur.isEmpty then wsTokensAux [] cs else cur.reverse :: wsTokensAux [] cs
      else wsTokensAux (c :: cur) cs

/-- Python `s.split()` with no argument: split on whitespace runs,
discarding empty pieces. -/
def pySplitWS (s : String) : List String :=
  (wsTokensAux [] s.toList).map (fun cs => String.mk cs)

/-- Numeric value of a list of decimal digit characters. -/
def digitsVal (cs : List Char) : ℕ :=
  cs.foldl (fun acc c => acc * 10 + (c.toNat - 48)) 0

/-- Python `int(s)` on a string: optional sign, then decimal digits
(surrounding whitespace tolerated).  Returns `none` where Python raises
`ValueError`.  (Underscore separators are not modelled; no input below
uses them.) -/
def pyIntOfString? (s : String) : Option ℤ :=
  let cs := (pyStrip s).toList
  match cs with
  | '-' :: rest => if rest ≠ [] ∧ rest.all Char.isDigit then some (-(digitsVal rest : ℤ)) else none
  | '+' :: rest => if rest ≠ [] ∧ rest.all Char.isDigit then some (digitsVal rest : ℤ) else none
  | _ => if cs ≠ [] ∧ cs.all Char.isDigit then some (digitsVal cs : ℤ) else none

/-- Value of an unsigned decimal literal with an optional fractional part,
e.g. `12`, `12.`, `.5`, `3.75`.  `none` when the characters do not form
such a literal. -/
def pyUnsignedFloat? (cs : List Char) : Option ℚ :=
  let intPart := cs.takeWhile Char.isDigit
  let rest := cs.dropWhile Char.isDigit
  match rest with
  | [] => if intPart ≠ [] then some (digitsVal intPart : ℚ) else none
  | '.' :: frac =>
      if frac.all Char.isDigit ∧ (intPart ≠ [] ∨ frac ≠ []) then
        some ((digitsVal intPart : ℚ) + (digitsVal frac : ℚ) / ((10 : ℚ) ^ frac.length))
      else none
  | _ => none

/-- Python `float(s)` on a string: optional sign and a decimal literal
(surrounding whitespace tolerated).  Returns `none` where Python raises
`ValueError`.  (Exponent, `inf`/`nan` and underscore forms are not
modelled; no input below uses them.) -/
def pyFloatOfString? (s : String) : Option ℚ :=
  let cs := (pyStrip s).toList
  match cs with
  | '-' :: rest => (pyUnsignedFloat? rest).map Neg.neg
  | '+' :: rest => pyUnsignedFloat? rest
  | _ => pyUnsignedFloat? cs

/-- Python `int(q)` on a number: truncation toward zero. -/
def pyTruncRat (q : ℚ) : ℤ :=
  if 0 ≤ q then ⌊q⌋ else ⌈q⌉

/-- Python truthiness of a JSON value (`if x:`). -/
def pyTruthy : Json → Bool
  | .null => false
  | .bool b => b
  | .num q => q ≠ 0
  | .str s => s ≠ ""
  | .arr xs => !xs.isEmpty
  | .obj fs => !fs.isEmpty

-- ----------------------------------------------------------------------
-- Entity model (planner.py dataclasses), in their operational typed form.
-- ----------------------------------------------------------------------

/-- `planner.Subject` (operational form: fields as the planner's own
mutators produce them). -/
structure Subject where
  name : String
  hours_per_week : ℚ
  priority : ℤ
  deadline : Option String
  subject_type : String
deriving DecidableEq, Repr

/-- `planner.Task`.  `created_at`/`completed_at` dates are day ordinals. -/
structure Task where
  id : String
  subject_name : String
  title : String
  due_date : Option String
  done : Bool
  skipped : Bool
  created_at : ℤ
  completed_at : Option ℤ
deriving DecidableEq, Repr

/-- `planner.Exam`.  `exam_date` is `some d` when the stored string parses
as a date (day ordinal `d`), `none` when `datetime.strptime` would raise. -/
structure Exam where
  id : String
  name : String
  subject_name : String
  exam_date : Option ℤ
  weight : String
  chapters : String
deriving DecidableEq, Repr

/-- `planner.UserStats`. -/
structure UserStats where
  total_points : ℤ
  current_streak : ℤ
  last_completion_date : Option ℤ
deriving DecidableEq, Repr

/-- One entry of `StudyPlan.behavior_log`
(`{"date": ..., "task_id": ..., "action": ..., "title": ...}`). -/
structure BehaviorEntry where
  date : ℤ
  task_id : String
  action : String
  title : String
deriving DecidableEq, Repr

/-- The `StudyPlan` aggregate (its five mutable members). -/
structure PlanState where
  subjects : List Subject
  tasks : List Task
  exams : List Exam
  user_stats : UserStats
  behavior_log : List BehaviorEntry
deriving DecidableEq, Repr

def POINTS_PER_TASK : ℤ := 10
def POINTS_PER_SKIP_PENALTY : ℤ := -3
def LEVEL_POINTS_STEP : ℤ := 100
def MAX_STREAK_BONUS_POINTS : ℤ := 5

/-- `UserStats.level`: `max(1, 1 + total_points // 100)` with Python floor
division. -/
def level (s : UserStats) : ℤ :=
  max 1 (1 + Int.fdiv s.total_points LEVEL_POINTS_STEP)

/-- `planner._update_streak(last_date, today)`.  The stored date is always
well-formed in the model (day ordinal), so the `ValueError` branch
(malformed stored string, returning 1) is unreachable here. -/
def update_streak (last_date : Option ℤ) (today : ℤ) : ℤ :=
  match last_date with
  | none => 1
  | some last =>
      let delta := today - last
      if delta = 0 then 0
      else if delta = 1 then 1
      else 0

/-- The mutation `complete_task` performs on `user_stats` (the
points-and-streak block guarded by `last_completion_date == today`). -/
def completeStats (today : ℤ) (s : UserStats) : UserStats :=
  if s.last_completion_date = some today then s
  else
    let streak_inc := update_streak s.last_completion_date today
    let streak :=
      if streak_inc = 0 ∧ s.last_completion_date ≠ some today then 1
      else s.current_streak + 1
    let pts0 := s.total_points + POINTS_PER_TASK
    let pts :=
      if streak > 1 then pts0 + min MAX_STREAK_BONUS_POINTS (streak - 1) else pts0
    ⟨pts, streak, some today⟩

/-- `Exam.days_left()` relative to `today` (strptime failure ⇒ `none`). -/
def days_left (today : ℤ) (e : Exam) : Option ℤ :=
  e.exam_date.map (fun d => d - today)

-- ----------------------------------------------------------------------
-- Task operations (complete_task / skip_task / add_task / add_subject).
-- ----------------------------------------------------------------------

/-- The `for t in self.tasks: if t.id == task_id:` search pattern —
the first task with the given id, if any. -/
def firstTask (tid : String) : List Task → Option Task
  | [] => none
  | t :: ts => if t.id = tid then some t else firstTask tid ts

/-- Outcome of the body of `complete_task`'s / `skip_task`'s loop. -/
inductive TaskActResult where
  | notFound
  | alreadyDone
  | acted (title : String) (tasks : List Task)
deriving DecidableEq, Repr

/-- The loop of `complete_task`: on the first task with the given id,
return "already done" if its `done` flag is set (the `skipped` flag is
not consulted), else set `done`/`completed_at` in place. -/
def completeLoop (today : ℤ) (tid : String) : List Task → TaskActResult
  | [] => .notFound
  | t :: ts =>
      if t.id = tid then
        if t.done then .alreadyDone
        else .acted t.title ({ t with done := true, completed_at := some today } :: ts)
      else
        match completeLoop today tid ts with
        | .notFound => .notFound
        | .alreadyDone => .alreadyDone
        | .acted title rest => .acted title (t :: rest)

/-- The loop of `skip_task`: on the first task with the given id,
return "already done" if `done` is set, else set `skipped` in place. -/
def skipLoop (tid : String) : List Task → TaskActResult
  | [] => .notFound
  | t :: ts =>
      if t.id = tid then
        if t.done then .alreadyDone
        else .acted t.title ({ t with skipped := true } :: ts)
      else
        match skipLoop tid ts with
        | .notFound => .notFound
        | .alreadyDone => .alreadyDone
        | .acted title rest => .acted title (t :: rest)

/-- Specification helper, used only in theorem statements: mark the first
task with the given id as done with the given completion date, leaving
every other field and task unchanged. -/
def markDoneFirst (today : ℤ) (tid : String) : List Task → List Task
  | [] => []
  | t :: ts =>
      if t.id = tid then { t with done := true, completed_at := some today } :: ts
      else t :: markDoneFirst today tid ts

/-- `StudyPlan._recent_skips()`: skip count among the last 14 log entries. -/
def recent_skips (log : List BehaviorEntry) : ℕ :=
  (pyLastN log 14).countP (fun x => x.action = "skip")

/-- `StudyPlan.complete_task(task_id)`.  Result: the returned message, the
plan state afterwards, and whether `_save` was invoked. -/
def complete_task (today : ℤ) (tid : String) (p : PlanState) :
    String × PlanState × Bool :=
  match completeLoop today tid p.tasks with
  | .notFound => ("Task not found.", p, false)
  | .alreadyDone => ("Task already done.", p, false)
  | .acted title newTasks =>
      let stats := completeStats today p.user_stats
      let log := p.behavior_log ++ [⟨today, tid, "done", title⟩]
      let p' : PlanState :=
        { p with tasks := newTasks, user_stats := stats, behavior_log := log }
      ("Done. **+" ++ toString POINTS_PER_TASK ++ " pts** | Streak: " ++
         toString stats.current_streak ++ " | Level " ++ toString (level stats) ++ ".",
       p', true)

/-- `StudyPlan.skip_task(task_id)`. -/
def skip_task (today : ℤ) (tid : String) (p : PlanState) :
    String × PlanState × Bool :=
  match skipLoop tid p.tasks with
  | .notFound => ("Task not found.", p, false)
  | .alreadyDone => ("Task already done.", p, false)
  | .acted title newTasks =>
      let stats :=
        { p.user_stats with
            total_points := p.user_stats.total_points + POINTS_PER_SKIP_PENALTY }
      let log := p.behavior_log ++ [⟨today, tid, "skip", title⟩]
      let p' : PlanState :=
        { p with tasks := newTasks, user_stats := stats, behavior_log := log }
      let n := recent_skips log
      if n ≥ 3 then
        ("Skipped. **" ++ toString POINTS_PER_SKIP_PENALTY ++ " pts.** You have skipped " ++
           toString n ++ " times recently. Next skip will reduce your daily plan. Do the next task.",
         p', true)
      else
        ("Skipped. **" ++ toString POINTS_PER_SKIP_PENALTY ++ " pts.** Stay consistent.",
         p', true)

/-- `StudyPlan.add_task` (the fresh `uuid4[:8]` id is the explicit `tid`
argument; the returned confirmation string, exercised by no claim, is
omitted).  Always appends and saves. -/
def add_task (tid : String) (today : ℤ) (subject_name title : String)
    (due_date : Option String) (p : PlanState) : PlanState × Bool :=
  ({ p with tasks := p.tasks ++ [⟨tid, subject_name, title, due_date, false, false, today, none⟩] },
   true)

/-- `StudyPlan.add_subject` (the returned confirmation string, exercised
by no claim, is omitted).  Always appends and saves — there is no
uniqueness check on `name`. -/
def add_subject (name : String) (hours : ℚ) (priority : ℤ)
    (deadline : Option String) (subject_type : String) (p : PlanState) :
    PlanState × Bool :=
  ({ p with subjects := p.subjects ++ [⟨name, hours, priority, deadline, subject_type⟩] },
   true)

-- ----------------------------------------------------------------------
-- Scheduler (suggest_daily_schedule, get_revision_plan).
-- ----------------------------------------------------------------------

/-- `a` sorts no later than `b` under Python's key
`(priority, -hours_per_week)`. -/
def subjectKeyLE (a b : Subject) : Bool :=
  a.priority < b.priority ∨ (a.priority = b.priority ∧ b.hours_per_week ≤ a.hours_per_week)

/-- Stable insertion of `x` after every element that sorts no later
than it. -/
def insertSubject (x : Subject) : List Subject → List Subject
  | [] => [x]
  | y :: ys => if subjectKeyLE y x then y :: insertSubject x ys else x :: y :: ys

/-- Python `sorted(subjects, key=lambda x: (x.priority, -x.hours_per_week))`
(a stable ascending sort). -/
def sortSubjects (l : List Subject) : List Subject :=
  l.foldl (fun acc x => insertSubject x acc) []

/-- The weight total of `suggest_daily_schedule`:
`sum(hours) or len(subjects)*2` (Python `or`: the fallback applies exactly
when the sum equals 0). -/
def dailyTotal (subs : List Subject) : ℚ :=
  let sumH := (subs.map Subject.hours_per_week).sum
  if sumH = 0 then (subs.length : ℚ) * 2 else sumH

/-- Per-subject minutes of `suggest_daily_schedule`:
`max(15, int(hours_per_day * 60 * (hours or 1) / max(total, 1)))`. -/
def dailyMinutes (hpd : ℚ) (total : ℚ) (s : Subject) : ℤ :=
  let share := (if s.hours_per_week = 0 then 1 else s.hours_per_week) / max total 1
  max 15 (pyTruncRat (hpd * 60 * share))

/-- `StudyPlan.suggest_daily_schedule`: `none` when there are no subjects
(the "Add subjects first" reply), else the displayed per-subject minute
allocations in display order. -/
def suggest_daily_schedule (hpd : ℚ) (subs : List Subject) :
    Option (List (String × ℤ)) :=
  if subs.isEmpty then none
  else
    let total := dailyTotal subs
    some ((sortSubjects subs).map (fun s => (s.name, dailyMinutes hpd total s)))

/-- One parsed chapter item: an expanded integer, or a literal token kept
verbatim when integer parsing fails. -/
inductive ChapterItem where
  | num (n : ℤ)
  | lit (s : String)
deriving DecidableEq, Repr

/-- Python `range(a, b + 1)` as a list: the integers `a .. b`. -/
def intRange (a b : ℤ) : List ℤ :=
  (List.range (b + 1 - a).toNat).map (fun i => a + (i : ℤ))

/-- Chapter-token expansion: `"a-b"` with both bounds parsing as integers
expands to the inclusive range; otherwise the token is kept literally;
a bare integer token becomes one numeric item. -/
def parseChapterToken (p : String) : List ChapterItem :=
  if containsSubstr p "-" then
    let a := pyBeforeFirst p "-"
    let b := pyAfterFirst p "-"
    match pyIntOfString? (pyStrip a), pyIntOfString? (pyStrip b) with
    | some x, some y => (intRange x y).map ChapterItem.num
    | _, _ => [.lit p]
  else
    match pyIntOfString? p with
    | some v => [.num v]
    | none => [.lit p]

/-- The chapter parser of `get_revision_plan`:
`ch.replace(",", " ").split()` then per-token expansion. -/
def parseChapters (ch : String) : List ChapterItem :=
  (pySplitWS (pyReplace ch "," " ")).flatMap parseChapterToken

/-- The `while i < n and day <= days` distribution loop: successive chunks
of `per_day` items, at most `days` chunks. -/
def spreadChunks (parts : List α) (per_day days : ℕ) : List (List α) :=
  match days, parts with
  | 0, _ => []
  | _, [] => []
  | d + 1, ps => ps.take per_day :: spreadChunks (ps.drop per_day) per_day d

/-- Result of `get_revision_plan` (the four reply shapes; the message
rendering of a successful plan is its day-bucket list). -/
inductive RevisionResult where
  | notFound
  | passedOrInvalid (name : String)
  | noChapters (name : String)
  | plan (name : String) (buckets : List (List ChapterItem))
deriving DecidableEq, Repr

/-- `StudyPlan.get_revision_plan(exam_id)`. -/
def get_revision_plan (today : ℤ) (exam_id : String) (p : PlanState) :
    RevisionResult :=
  match p.exams.find? (fun e => e.id == exam_id) with
  | none => .notFound
  | some exam =>
      match days_left today exam with
      | none => .passedOrInvalid exam.name
      | some d =>
          if d ≤ 0 then .passedOrInvalid exam.name
          else
            let ch := pyStrip exam.chapters
            if ch = "" then .noChapters exam.name
            else
              let parts := parseChapters ch
              let parts := if parts.isEmpty then [ChapterItem.lit ch] else parts
              let n := parts.length
              let days := d.toNat
              let per_day := max 1 ((n + days - 1) / days)
              .plan exam.name (spreadChunks parts per_day days)

-- ----------------------------------------------------------------------
-- Command parsing (parse_add_command).
-- ----------------------------------------------------------------------

def codingKeywords : List String :=
  ["coding", "code", "dsa", "programming", "algorithms", "interview", "debugging"]

def collegeKeywords : List String :=
  ["college", "theory", "numericals", "derivations"]

/-- `planner._infer_subject_type` (`SUBJECT_TYPE_KEYWORDS` iterated in
insertion order: coding before college).  Substring checks run on the
argument exactly as given — the call site passes the un-lowered `rest`. -/
def infer_subject_type (rest : String) : String :=
  if codingKeywords.any (fun kw => containsSubstr rest kw) then "coding"
  else if collegeKeywords.any (fun kw => containsSubstr rest kw) then "college"
  else "general"

/-- The token scan of `parse_add_command`: tokens before the first one
that parses as a float become name parts; the first float becomes the
hours (0.0 when no token parses). -/
def scanAddTokens : List String → List String × ℚ
  | [] => ([], 0)
  | p :: ps =>
      match pyFloatOfString? p with
      | some h => ([], h)
      | none =>
          let (nps, h) := scanAddTokens ps
          (p :: nps, h)

/-- The dict returned by `parse_add_command`. -/
structure AddParse where
  name : String
  hours : ℚ
  subject_type : String
deriving DecidableEq, Repr

/-- `planner.parse_add_command(text)`.  Note: the guard lowers the text,
but the remainder is cut from the original-case text at the first
occurrence of the five-character string `" add "` — an input that merely
starts with `"add "` is not cut at all. -/
def parse_add_command (text : String) : Option AddParse :=
  let t := pyLower (pyStrip text)
  if !(pyStartsWith t "add " || containsSubstr t " add ") then none
  else
    let rest :=
      pyStrip (pyReplace (pyReplace (pyStrip (pyAfterFirst (pyStrip text) " add ")) "subject" "") "topic" "")
    if rest = "" then none
    else
      let subject_type := infer_subject_type rest
      let parts := pySplitWS rest
      let (name_parts, hours0) := scanAddTokens parts
      let name :=
        if !name_parts.isEmpty then pyStrip (joinWith " " name_parts)
        else parts.headD ""
      if name = "" then none
      else some ⟨name, if hours0 = 0 then 2 else hours0, subject_type⟩

-- ----------------------------------------------------------------------
-- Storage layer (storage.py) and the load path (StudyPlan._load).
-- ----------------------------------------------------------------------

/-- The state of the persistence file as seen by `load_raw`. -/
inductive FileContent where
  | missing
  | invalidJson   -- exists but `json.load` raises (or the read raises OSError)
  | parsed (j : Json)

/-- `storage.load_raw()`: `{}` for a missing file or a decode/OS error,
otherwise whatever JSON value the file holds (`json.load` may return a
non-object; the function passes it through unchecked). -/
def load_raw : FileContent → Json
  | .missing => .obj []
  | .invalidJson => .obj []
  | .parsed j => j

/-- Python `raw.get(key, default)`: only objects (dicts) support `.get`;
any other value raises `AttributeError`. -/
def pyDictGet (j : Json) (key : String) (default : Json) : Except String Json :=
  match j with
  | .obj fields => .ok (((fields.find? (fun kv => kv.1 == key)).map Prod.snd).getD default)
  | _ => .error "AttributeError"

/-- `storage.load_plan_data()`: the raw `subjects`/`tasks`/`exams` values. -/
def load_plan_data (c : FileContent) : Except String (Json × Json × Json) := do
  let raw := load_raw c
  let s ← pyDictGet raw "subjects" (.arr [])
  let t ← pyDictGet raw "tasks" (.arr [])
  let e ← pyDictGet raw "exams" (.arr [])
  pure (s, t, e)

/-- `storage.load_user_stats()`. -/
def load_user_stats (c : FileContent) : Except String Json :=
  pyDictGet (load_raw c) "user_stats" (.obj [])

/-- `storage.load_behavior_log()`. -/
def load_behavior_log (c : FileContent) : Except String Json :=
  pyDictGet (load_raw c) "behavior_log" (.arr [])

/-- Python `for x in j`: lists iterate elements, strings iterate
characters, dicts iterate keys; every other JSON value raises
`TypeError`. -/
def pyIterate (j : Json) : Except String (List Json) :=
  match j with
  | .arr xs => .ok xs
  | .str s => .ok (s.toList.map (fun ch => Json.str (String.mk [ch])))
  | .obj fs => .ok (fs.map (fun kv => Json.str kv.1))
  | _ => .error "TypeError"

/-- Python `float(x)` on a JSON value. -/
def pyFloat (j : Json) : Except String ℚ :=
  match j with
  | .num q => .ok q
  | .bool b => .ok (if b then 1 else 0)
  | .str s =>
      match pyFloatOfString? s with
      | some q => .ok q
      | none => .error "ValueError"
  | _ => .error "TypeError"

/-- Python `int(x)` on a JSON value (numbers truncate toward zero,
strings must be integer literals). -/
def pyInt (j : Json) : Except String ℤ :=
  match j with
  | .num q => .ok (pyTruncRat q)
  | .bool b => .ok (if b then 1 else 0)
  | .str s =>
      match pyIntOfString? s with
      | some v => .ok v
      | none => .error "ValueError"
  | _ => .error "TypeError"

/-- `Subject.from_dict` as run during load.  The dataclass does not check
field types: `name`, `deadline` and `subject_type` are assigned raw
(`Json` fields here); only `float(...)`/`int(...)` can raise. -/
structure LoadedSubject where
  name : Json
  hours_per_week : ℚ
  priority : ℤ
  deadline : Json
  subject_type : Json

def subjectFromDict (d : Json) : Except String LoadedSubject := do
  let name ← pyDictGet d "name" (.str "")
  let hw ← pyFloat (← pyDictGet d "hours_per_week" (.num 0))
  let pr ← pyInt (← pyDictGet d "priority" (.num 1))
  let dl ← pyDictGet d "deadline" .null
  let ty ← pyDictGet d "subject_type" (.str "general")
  pure ⟨name, hw, pr, dl, ty⟩

/-- `Task.from_dict` as run during load: `bool(...)` never raises, all
other fields are assigned raw.  `fresh` models the `uuid4[:8]` default. -/
structure LoadedTask where
  id : Json
  subject_name : Json
  title : Json
  due_date : Json
  done : Bool
  skipped : Bool
  created_at : Json
  completed_at : Json

def taskFromDict (fresh : String) (d : Json) : Except String LoadedTask := do
  let id ← pyDictGet d "id" (.str fresh)
  let sn ← pyDictGet d "subject_name" (.str "")
  let ti ← pyDictGet d "title" (.str "")
  let dd ← pyDictGet d "due_date" .null
  let dn ← pyDictGet d "done" (.bool false)
  let sk ← pyDictGet d "skipped" (.bool false)
  let ca ← pyDictGet d "created_at" (.str "")
  let co ← pyDictGet d "completed_at" .null
  pure ⟨id, sn, ti, dd, pyTruthy dn, pyTruthy sk, ca, co⟩

/-- `Exam.from_dict` as run during load: every field assigned raw. -/
structure LoadedExam where
  id : Json
  name : Json
  subject_name : Json
  exam_date : Json
  weight : Json
  chapters : Json

def examFromDict (fresh : String) (d : Json) : Except String LoadedExam := do
  let id ← pyDictGet d "id" (.str fresh)
  let nm ← pyDictGet d "name" (.str "")
  let sn ← pyDictGet d "subject_name" (.str "")
  let ed ← pyDictGet d "exam_date" (.str "")
  let wt ← pyDictGet d "weight" (.str "")
  let ch ← pyDictGet d "chapters" (.str "")
  pure ⟨id, nm, sn, ed, wt, ch⟩

/-- `UserStats.from_dict` as run during load. -/
structure LoadedStats where
  total_points : ℤ
  current_streak : ℤ
  last_completion_date : Json

def userStatsFromDict (d : Json) : Except String LoadedStats := do
  let tp ← pyInt (← pyDictGet d "total_points" (.num 0))
  let cs ← pyInt (← pyDictGet d "current_streak" (.num 0))
  let lc ← pyDictGet d "last_completion_date" .null
  pure ⟨tp, cs, lc⟩

/-- The plan state right after `StudyPlan._load` (entity fields in the
raw, unchecked form Python leaves them in; the behavior log is assigned
whatever JSON value the store held, without any conversion). -/
structure LoadResult where
  subjects : List LoadedSubject
  tasks : List LoadedTask
  exams : List LoadedExam
  user_stats : LoadedStats
  behavior_log : Json

/-- Zeroed stats: the `UserStats()` default kept when the loaded stats
dict is falsy. -/
def freshLoadedStats : LoadedStats := ⟨0, 0, .null⟩

/-- `StudyPlan._load()` (with `__init__`'s defaults).  `fresh` models the
uuid supply for missing-id defaults. -/
def loadPlan (fresh : String) (c : FileContent) : Except String LoadResult := do
  let (sj, tj, ej) ← load_plan_data c
  let ss ← (← pyIterate sj).mapM subjectFromDict
  let ts ← (← pyIterate tj).mapM (taskFromDict fresh)
  let es ← (← pyIterate ej).mapM (examFromDict fresh)
  let statsJ ← load_user_stats c
  let stats ← if pyTruthy statsJ then userStatsFromDict statsJ else pure freshLoadedStats
  let log ← load_behavior_log c
  pure ⟨ss, ts, es, stats, log⟩

-- ----------------------------------------------------------------------
-- Save path (storage.save_all / save_behavior_log, StudyPlan._save).
-- ----------------------------------------------------------------------

/-- `Subject.to_dict()`. -/
def subjectToDict (s : Subject) : Json :=
  .obj [("name", .str s.name), ("hours_per_week", .num s.hours_per_week),
        ("priority", .num (s.priority : ℚ)),
        ("deadline", match s.deadline with | none => .null | some d => .str d),
        ("subject_type", .str s.subject_type)]

/-- `Task.to_dict()` (dates rendered as their ordinal numbers under the
date model). -/
def taskToDict (t : Task) : Json :=
  .obj [("id", .str t.id), ("subject_name", .str t.subject_name),
        ("title", .str t.title),
        ("due_date", match t.due_date with | none => .null | some d => .str d),
        ("done", .bool t.done), ("skipped", .bool t.skipped),
        ("created_at", .num (t.created_at : ℚ)),
        ("completed_at", match t.completed_at with | none => .null | some d => .num (d : ℚ))]

/-- `Exam.to_dict()`. -/
def examToDict (e : Exam) : Json :=
  .obj [("id", .str e.id), ("name", .str e.name),
        ("subject_name", .str e.subject_name),
        ("exam_date", match e.exam_date with | none => .str "" | some d => .num (d : ℚ)),
        ("weight", .str e.weight), ("chapters", .str e.chapters)]

/-- `UserStats.to_dict()`. -/
def userStatsToDict (s : UserStats) : Json :=
  .obj [("total_points", .num (s.total_points : ℚ)),
        ("current_streak", .num (s.current_streak : ℚ)),
        ("last_completion_date",
         match s.last_completion_date with | none => .null | some d => .num (d : ℚ))]

/-- A behavior-log entry as the dict appended by `complete_task`/`skip_task`. -/
def behaviorEntryToDict (e : BehaviorEntry) : Json :=
  .obj [("date", .num (e.date : ℚ)), ("task_id", .str e.task_id),
        ("action", .str e.action), ("title", .str e.title)]

/-- `storage.save_all(...)`: one `save_raw` of the five keys, passing the
`behavior_log` list through verbatim — no truncation happens here. -/
def save_all (subjects tasks exams : List Json) (user_stats : Json)
    (behavior_log : List Json) : Json :=
  .obj [("subjects", .arr subjects), ("tasks", .arr tasks), ("exams", .arr exams),
        ("user_stats", user_stats), ("behavior_log", .arr behavior_log)]

/-- `StudyPlan._save()`: the blob `save_all` writes for a plan state. -/
def savePlan (p : PlanState) : Json :=
  save_all (p.subjects.map subjectToDict) (p.tasks.map taskToDict)
    (p.exams.map examToDict) (userStatsToDict p.user_stats)
    (p.behavior_log.map behaviorEntryToDict)

/-- Python `raw[key] = v` on a dict modelled as an association list:
replace the existing binding or append a new one. -/
def setAssoc : List (String × Json) → String → Json → List (String × Json)
  | [], k, v => [(k, v)]
  | (k', v') :: rest, k, v =>
      if k' == k then (k, v) :: rest else (k', v') :: setAssoc rest k v

/-- `storage.save_behavior_log(log)`: reload the raw blob, overwrite its
`behavior_log` key with the last 500 entries (`log[-MAX_ENTRIES:]`), and
write it back.  Raises (`TypeError`) when the raw blob is not an object. -/
def save_behavior_log (c : FileContent) (log : List Json) : Except String Json :=
  match load_raw c with
  | .obj fields => .ok (.obj (setAssoc fields "behavior_log" (.arr (pyLastN log 500))))
  | _ => .error "TypeError"

/-- Statement-side accessor: the value of a key in a JSON object. -/
def getField (j : Json) (k : String) : Option Json :=
  match j with
  | .obj fields => ((fields.find? (fun kv => kv.1 == k)).map Prod.snd)
  | _ => none

/-- Statement-side accessor: length of a JSON array. -/
def jsonArrLen (j : Json) : Option ℕ :=
  match j with
  | .arr xs => some xs.length
  | _ => none

-- ----------------------------------------------------------------------
-- Spec-side definitions (written from the specification's words, for
-- comparison with the code model) and concrete instances.
-- ----------------------------------------------------------------------

/-- The specification's `total_weight`:
"sum(hours_per_week) across subjects, or len(subjects)*2 if that sum
is ≤ 0". -/
def claimTotalWeight (subs : List Subject) : ℚ :=
  let sumH := (subs.map Subject.hours_per_week).sum
  if sumH ≤ 0 then (subs.length : ℚ) * 2 else sumH

/-- The claim's per-subject allocation:
"max(15, floor(hours_per_day × 60 × share)) minutes where
share = hours_per_week (or 1 if zero) divided by the total weight". -/
def claimDailyMinutes (hpd : ℚ) (subs : List Subject) (s : Subject) : ℤ :=
  max 15 ⌊hpd * 60 *
    ((if s.hours_per_week = 0 then 1 else s.hours_per_week) / claimTotalWeight subs)⌋

/-- The amended allocation: as the claim, but the divisor is clamped below
at 1 (`max(total, 1)`), with the sum-fallback applying exactly when the
sum equals 0, and minutes truncated toward zero (equal to floor on the
nonnegative inputs considered). -/
def amendedDailyMinutes (hpd : ℚ) (subs : List Subject) (s : Subject) : ℤ :=
  max 15 ⌊hpd * 60 *
    ((if s.hours_per_week = 0 then 1 else s.hours_per_week) / max (dailyTotal subs) 1)⌋

/-- The `UserStats()` default: fresh gamification stats. -/
def fresh_user_stats : UserStats := ⟨0, 0, none⟩

/-- A fresh, empty plan (the state `StudyPlan.__init__` builds before
`_load`, or after loading an absent store). -/
def emptyPlan : PlanState := ⟨[], [], [], fresh_user_stats, []⟩

/-- A plan whose behavior log holds 501 entries. -/
def plan501 : PlanState :=
  ⟨[], [], [], fresh_user_stats, List.replicate 501 ⟨0, "t", "done", "x"⟩⟩

/-- A single subject with a fractional weekly-hours total below 1. -/
def halfSubject : Subject := ⟨"A", 1/2, 1, none, "general"⟩

/-- The spec's two-subject schedule example. -/
def subjectA : Subject := ⟨"A", 6, 1, none, "general"⟩

def subjectB : Subject := ⟨"B", 2, 2, none, "general"⟩

/-- A concrete exam three days away (relative to day 0) with chapters
`"1-5"`. -/
def examC8 : Exam := ⟨"e1", "Mid", "Math", some 3, "", "1-5"⟩

/-- A plan holding only `examC8`. -/
def planC8 : PlanState := ⟨[], [], [examC8], fresh_user_stats, []⟩

/-- A concrete pending task. -/
def taskPending : Task := ⟨"t1", "Math", "Read ch1", none, false, false, 0, none⟩

/-- The same task already completed. -/
def taskDone : Task := ⟨"t1", "Math", "Read ch1", none, true, false, 0, some 0⟩

/-- The same task skipped (not done). -/
def taskSkipped : Task := ⟨"t1", "Math", "Read ch1", none, false, true, 0, none⟩

/-- Plan with one pending task and a completion already recorded today
(day 0). -/
def planSameDay : PlanState := ⟨[], [taskPending], [], ⟨0, 0, some 0⟩, []⟩

/-- Plan with one already-done task. -/
def planDone : PlanState := ⟨[], [taskDone], [], fresh_user_stats, []⟩

/-- Plan with one skipped (not done) task. -/
def planSkipped : PlanState := ⟨[], [taskSkipped], [], fresh_user_stats, []⟩

-- ----------------------------------------------------------------------
-- Helper lemmas.
-- ----------------------------------------------------------------------

/-- When no task has the id, `complete_task`'s loop reports not-found. -/
theorem completeLoop_of_firstTask_none {tid : String} {today : ℤ} :
    ∀ {ts : List Task}, firstTask tid ts = none →
      completeLoop today tid ts = .notFound := by
  intro ts
  induction ts with
  | nil => intro _; rfl
  | cons t ts ih =>
      intro h
      by_cases hid : t.id = tid
      · simp [firstTask, hid] at h
      · simp [firstTask, hid] at h
        simp [completeLoop, hid, ih h]

/-- When no task has the id, `skip_task`'s loop reports not-found. -/
theorem skipLoop_of_firstTask_none {tid : String} :
    ∀ {ts : List Task}, firstTask tid ts = none →
      skipLoop tid ts = .notFound := by
  intro ts
  induction ts with
  | nil => intro _; rfl
  | cons t ts ih =>
      intro h
      by_cases hid : t.id = tid
      · simp [firstTask, hid] at h
      · simp [firstTask, hid] at h
        simp [skipLoop, hid, ih h]

/-- When the first matching task is already done, `complete_task`'s loop
reports already-done. -/
theorem completeLoop_of_done {tid : String} {today : ℤ} {t : Task} :
    ∀ {ts : List Task}, firstTask tid ts = some t → t.done = true →
      completeLoop today tid ts = .alreadyDone := by
  intro ts
  induction ts with
  | nil => intro h; simp [firstTask] at h
  | cons u us ih =>
      intro h hd
      by_cases hid : u.id = tid
      · simp [firstTask, hid] at h
        subst h
        simp [completeLoop, hid, hd]
      · simp [firstTask, hid] at h
        simp [completeLoop, hid, ih h hd]

/-- When the first matching task is already done, `skip_task`'s loop
reports already-done. -/
theorem skipLoop_of_done {tid : String} {t : Task} :
    ∀ {ts : List Task}, firstTask tid ts = some t → t.done = true →
      skipLoop tid ts = .alreadyDone := by
  intro ts
  induction ts with
  | nil => intro h; simp [firstTask] at h
  | cons u us ih =>
      intro h hd
      by_cases hid : u.id = tid
      · simp [firstTask, hid] at h
        subst h
        simp [skipLoop, hid, hd]
      · simp [firstTask, hid] at h
        simp [skipLoop, hid, ih h hd]

/-- When the first matching task is not done, `complete_task`'s loop marks
exactly that task done (with the completion date). -/
theorem completeLoop_of_not_done {tid : String} {today : ℤ} {t : Task} :
    ∀ {ts : List Task}, firstTask tid ts = some t → t.done = false →
      completeLoop today tid ts = .acted t.title (markDoneFirst today tid ts) := by
  intro ts
  induction ts with
  | nil => intro h; simp [firstTask] at h
  | cons u us ih =>
      intro h hd
      by_cases hid : u.id = tid
      · simp [firstTask, hid] at h
        subst h
        simp [completeLoop, markDoneFirst, hid, hd]
      · simp [firstTask, hid] at h
        simp [completeLoop, markDoneFirst, hid, ih h hd]

/-- Marking the first matching task done updates what `firstTask` finds
accordingly. -/
theorem firstTask_markDoneFirst {tid : String} {today : ℤ} {t : Task} :
    ∀ {ts : List Task}, firstTask tid ts = some t →
      firstTask tid (markDoneFirst today tid ts) =
        some { t with done := true, completed_at := some today } := by
  intro ts
  induction ts with
  | nil => intro h; simp [firstTask] at h
  | cons u us ih =>
      intro h
      by_cases hid : u.id = tid
      · simp [firstTask, hid] at h
        subst h
        simp [markDoneFirst, firstTask, hid]
      · simp [firstTask, hid] at h
        simp [markDoneFirst, firstTask, hid, ih h]

/-- Membership after stable insertion. -/
theorem mem_insertSubject {a x : Subject} :
    ∀ {l : List Subject}, a ∈ insertSubject x l → a = x ∨ a ∈ l := by
  intro l
  induction l with
  | nil => intro h; simpa [insertSubject] using h
  | cons y ys ih =>
      intro h
      by_cases hle : subjectKeyLE y x
      · simp [insertSubject, hle] at h
        rcases h with h | h
        · exact Or.inr (by simp [h])
        · rcases ih h with h' | h'
          · exact Or.inl h'
          · exact Or.inr (by simp [h'])
      · simp [insertSubject, hle] at h
        rcases h with h | h | h
        · exact Or.inl h
        · exact Or.inr (by simp [h])
        · exact Or.inr (by simp [h])

/-- Members of the sorted list come from the accumulator or the input. -/
theorem mem_sortSubjects_foldl {a : Subject} :
    ∀ (l acc : List Subject),
      a ∈ List.foldl (fun acc x => insertSubject x acc) acc l →
        a ∈ acc ∨ a ∈ l := by
  intro l
  induction l with
  | nil => intro acc h; exact Or.inl h
  | cons x xs ih =>
      intro acc h
      rcases ih (insertSubject x acc) h with h' | h'
      · rcases mem_insertSubject h' with h'' | h''
        · exact Or.inr (by simp [h''])
        · exact Or.inl h''
      · exact Or.inr (by simp [h'])

/-- Members of the display-sorted subject list are subjects of the plan. -/
theorem mem_of_mem_sortSubjects {a : Subject} {l : List Subject}
    (h : a ∈ sortSubjects l) : a ∈ l := by
  rcases mem_sortSubjects_foldl l [] h with h' | h'
  · simp at h'
  · exact h'

/-- Python `int()` truncation agrees with floor on nonnegative rationals. -/
theorem pyTruncRat_eq_floor {q : ℚ} (h : 0 ≤ q) : pyTruncRat q = ⌊q⌋ := by
  simp [pyTruncRat, h]

-- ----------------------------------------------------------------------
-- Claim theorems.
-- ----------------------------------------------------------------------

/-- C1 counterexample: the claim "complete_task on a task with
skipped=true does not set done=true" is false.  Reachable chain: add a
task, skip it, then complete it — the resulting task has `done = true`
and `skipped = true` simultaneously. -/
theorem c1_counterexample_done_and_skipped :
    ((complete_task 0 "ab12cd34"
        (skip_task 0 "ab12cd34"
          (add_task "ab12cd34" 0 "Math" "Read ch1" none emptyPlan).1).2.1).2.1.tasks.map
      (fun t => (t.done, t.skipped))) = [(true, true)] := by
  decide

/-- C1 (amended): once done, `skip_task` is a no-op with the "already
done" message; but `complete_task` consults only the `done` flag, so a
skipped (not done) task is marked done in place, with its `skipped` flag
left `true` — `done` and `skipped` are not mutually exclusive. -/
theorem c1_amended_flags :
    (∀ (p : PlanState) (today : ℤ) (tid : String) (t : Task),
        firstTask tid p.tasks = some t → t.done = true →
        skip_task today tid p = ("Task already done.", p, false)) ∧
    (∀ (p : PlanState) (today : ℤ) (tid : String) (t : Task),
        firstTask tid p.tasks = some t → t.done = false → t.skipped = true →
        (complete_task today tid p).2.1.tasks = markDoneFirst today tid p.tasks ∧
        firstTask tid (complete_task today tid p).2.1.tasks =
          some { t with done := true, completed_at := some today } ∧
        ({ t with done := true, completed_at := some today } : Task).skipped = true) := by
  constructor
  · intro p today tid t hf hd
    simp [skip_task, skipLoop_of_done hf hd]
  · intro p today tid t hf hd hs
    have hloop : completeLoop today tid p.tasks =
        .acted t.title (markDoneFirst today tid p.tasks) :=
      completeLoop_of_not_done hf hd
    have htasks : (complete_task today tid p).2.1.tasks = markDoneFirst today tid p.tasks := by
      simp [complete_task, hloop]
    refine ⟨htasks, ?_, hs⟩
    rw [htasks]
    exact firstTask_markDoneFirst hf

/-- C1 witness: both amended parts at concrete one-task plans. -/
theorem c1_amended_flags_witness :
    skip_task 5 "t1" planDone = ("Task already done.", planDone, false) ∧
    ((complete_task 5 "t1" planSkipped).2.1.tasks = markDoneFirst 5 "t1" planSkipped.tasks ∧
     firstTask "t1" (complete_task 5 "t1" planSkipped).2.1.tasks =
       some { taskSkipped with done := true, completed_at := some 5 } ∧
     ({ taskSkipped with done := true, completed_at := some 5 } : Task).skipped = true) :=
  ⟨c1_amended_flags.1 planDone 5 "t1" taskDone (by decide) (by decide),
   c1_amended_flags.2 planSkipped 5 "t1" taskSkipped (by decide) (by decide) (by decide)⟩

/-- C2 (code bug): on input `"add Math 5"` the leading `add` keyword is
NOT stripped — the parser returns name `"add Math"`, not `"Math"` — while
the same command embedded after other words ("please add Math 5") parses
to name `"Math"`.  The cut `text.split(" add ", 1)[-1]` never matches an
input that merely starts with `"add "`. -/
theorem c2_add_keyword_retained :
    parse_add_command "add Math 5" = some ⟨"add Math", 5, "general"⟩ ∧
    parse_add_command "please add Math 5" = some ⟨"Math", 5, "general"⟩ ∧
    ("add Math" : String) ≠ "Math" := by
  refine ⟨by decide, by decide, by decide⟩

set_option maxRecDepth 4000 in
/-- C3 counterexample: `save_all` (hence `_save`) does not truncate the
behavior log — a 501-entry in-memory log is persisted with all 501
entries, exceeding the claimed 500-entry cap. -/
theorem c3_counterexample_no_truncation :
    (getField (savePlan plan501) "behavior_log").bind jsonArrLen = some 501 ∧
    ¬ (501 ≤ 500) := by
  constructor
  · have h : getField (savePlan plan501) "behavior_log" =
        some (.arr (plan501.behavior_log.map behaviorEntryToDict)) := rfl
    rw [h]
    show some ((plan501.behavior_log.map behaviorEntryToDict).length) = some 501
    rw [List.length_map]
    show some ((List.replicate 501 (⟨0, "t", "done", "x"⟩ : BehaviorEntry)).length) = some 501
    rw [List.length_replicate]
  · decide

/-- C3 (amended): `save_all`/`_save` persist the behavior log verbatim,
with no truncation; the 500-entry cap (oldest dropped first) lives only
in `storage.save_behavior_log`, which `_save` never calls. -/
theorem c3_amended_save_behavior :
    (∀ p : PlanState,
        getField (savePlan p) "behavior_log" =
          some (.arr (p.behavior_log.map behaviorEntryToDict))) ∧
    (∀ log : List Json,
        save_behavior_log .missing log =
          .ok (.obj [("behavior_log", .arr (pyLastN log 500))]) ∧
        (pyLastN log 500).length ≤ 500) := by
  constructor
  · intro p; rfl
  · intro log
    refine ⟨rfl, ?_⟩
    simp only [pyLastN, List.length_drop]
    omega

/-- C4 counterexample: loading a store whose content is valid JSON with a
non-object top level (here the array `[]`) raises (`AttributeError` on
`raw.get`), contradicting "loading never raises for any byte content". -/
theorem c4_counterexample_toplevel_array :
    loadPlan "u" (.parsed (.arr [])) = .error "AttributeError" := rfl

/-- C4 (amended): for a missing store file, or content that is not valid
JSON, loading never raises and yields empty subjects/tasks/exams, zeroed
stats, and an empty behavior log; a non-object top level instead
raises. -/
theorem c4_amended_load_defaults :
    ∀ fresh : String,
      loadPlan fresh .missing = .ok ⟨[], [], [], freshLoadedStats, .arr []⟩ ∧
      loadPlan fresh .invalidJson = .ok ⟨[], [], [], freshLoadedStats, .arr []⟩ :=
  fun _ => ⟨rfl, rfl⟩

/-- C5: when a completion was already recorded today
(`last_completion_date == today`), completing an existing not-done task
sets its `done` flag and `completed_at` and appends a behavior-log entry,
but leaves `user_stats` (total_points, current_streak,
last_completion_date) entirely unchanged, and saves. -/
theorem c5_same_day_completion_frame (p : PlanState) (today : ℤ) (tid : String) (t : Task)
    (hf : firstTask tid p.tasks = some t) (hd : t.done = false)
    (hl : p.user_stats.last_completion_date = some today) :
    complete_task today tid p =
      ("Done. **+" ++ toString POINTS_PER_TASK ++ " pts** | Streak: " ++
         toString p.user_stats.current_streak ++ " | Level " ++
         toString (level p.user_stats) ++ ".",
       { p with tasks := markDoneFirst today tid p.tasks,
                behavior_log := p.behavior_log ++ [⟨today, tid, "done", t.title⟩] },
       true) := by
  have hloop : completeLoop today tid p.tasks =
      .acted t.title (markDoneFirst today tid p.tasks) :=
    completeLoop_of_not_done hf hd
  have hstats : completeStats today p.user_stats = p.user_stats := by
    unfold completeStats
    rw [if_pos hl]
  simp only [complete_task, hloop, hstats]

/-- C5 witness: the frame property at a concrete one-task plan with a
completion already recorded on day 0. -/
theorem c5_same_day_completion_frame_witness :
    complete_task 0 "t1" planSameDay =
      ("Done. **+" ++ toString POINTS_PER_TASK ++ " pts** | Streak: " ++
         toString planSameDay.user_stats.current_streak ++ " | Level " ++
         toString (level planSameDay.user_stats) ++ ".",
       { planSameDay with
           tasks := markDoneFirst 0 "t1" planSameDay.tasks,
           behavior_log := planSameDay.behavior_log ++ [⟨0, "t1", "done", taskPending.title⟩] },
       true) :=
  c5_same_day_completion_frame planSameDay 0 "t1" taskPending (by decide) (by decide) (by decide)

/-- C6: an absent task id makes `complete_task` and `skip_task` return
"Task not found." with the aggregate unchanged and unpersisted; an
already-done task makes both return "Task already done." with no change
to any task field, `total_points` or `current_streak`, and no save. -/
theorem c6_not_found_and_already_done (p : PlanState) (today : ℤ) (tid : String) :
    (firstTask tid p.tasks = none →
        complete_task today tid p = ("Task not found.", p, false) ∧
        skip_task today tid p = ("Task not found.", p, false)) ∧
    (∀ t : Task, firstTask tid p.tasks = some t → t.done = true →
        complete_task today tid p = ("Task already done.", p, false) ∧
        skip_task today tid p = ("Task already done.", p, false)) := by
  constructor
  · intro h
    constructor
    · simp [complete_task, completeLoop_of_firstTask_none h]
    · simp [skip_task, skipLoop_of_firstTask_none h]
  · intro t hf hd
    constructor
    · simp [complete_task, completeLoop_of_done hf hd]
    · simp [skip_task, skipLoop_of_done hf hd]

/-- C6 witness: both error paths at a concrete plan. -/
theorem c6_not_found_and_already_done_witness :
    (complete_task 3 "zz" planDone = ("Task not found.", planDone, false) ∧
     skip_task 3 "zz" planDone = ("Task not found.", planDone, false)) ∧
    (complete_task 3 "t1" planDone = ("Task already done.", planDone, false) ∧
     skip_task 3 "t1" planDone = ("Task already done.", planDone, false)) :=
  ⟨(c6_not_found_and_already_done planDone 3 "zz").1 (by decide),
   (c6_not_found_and_already_done planDone 3 "t1").2 taskDone (by decide) (by decide)⟩

/-- C7: from fresh stats, first completions on days D, D+1, D+2 yield
streaks 1, 2, 3 (points 10, 21, 33: +10 flat, plus bonus min(5, streak−1)
when the resulting streak exceeds 1); completing on D then next on D+2
resets the streak to 1 (points 20: flat only); and in general every
streak-updating completion adds 10 plus the conditional bonus. -/
theorem c7_streak_and_points (D : ℤ) :
    completeStats D fresh_user_stats = ⟨10, 1, some D⟩ ∧
    completeStats (D + 1) (completeStats D fresh_user_stats) = ⟨21, 2, some (D + 1)⟩ ∧
    completeStats (D + 2) (completeStats (D + 1) (completeStats D fresh_user_stats)) =
      ⟨33, 3, some (D + 2)⟩ ∧
    completeStats (D + 2) (completeStats D fresh_user_stats) = ⟨20, 1, some (D + 2)⟩ ∧
    (∀ (s : UserStats) (t : ℤ), s.last_completion_date ≠ some t →
        (completeStats t s).total_points =
          s.total_points + POINTS_PER_TASK +
            (if 1 < (completeStats t s).current_streak then
               min MAX_STREAK_BONUS_POINTS ((completeStats t s).current_streak - 1)
             else 0)) := by
  have h1 : completeStats D fresh_user_stats = ⟨10, 1, some D⟩ := by
    simp [completeStats, update_streak, fresh_user_stats, POINTS_PER_TASK,
      MAX_STREAK_BONUS_POINTS]
  have e1 : D + 1 - D = (1 : ℤ) := by ring
  have e2 : D + 2 - (D + 1) = (1 : ℤ) := by ring
  have e3 : D + 2 - D = (2 : ℤ) := by ring
  have n1 : D ≠ D + 1 := by omega
  have n2 : D + 1 ≠ D + 2 := by omega
  have n3 : D ≠ D + 2 := by omega
  have h2 : completeStats (D + 1) (⟨10, 1, some D⟩ : UserStats) = ⟨21, 2, some (D + 1)⟩ := by
    simp [completeStats, update_streak, e1, n1, POINTS_PER_TASK, MAX_STREAK_BONUS_POINTS]
  have h3 : completeStats (D + 2) (⟨21, 2, some (D + 1)⟩ : UserStats) = ⟨33, 3, some (D + 2)⟩ := by
    simp [completeStats, update_streak, e2, n2, POINTS_PER_TASK, MAX_STREAK_BONUS_POINTS]
  have h4 : completeStats (D + 2) (⟨10, 1, some D⟩ : UserStats) = ⟨20, 1, some (D + 2)⟩ := by
    simp [completeStats, update_streak, e3, n3, POINTS_PER_TASK, MAX_STREAK_BONUS_POINTS]
  refine ⟨h1, by rw [h1]; exact h2, by rw [h1, h2]; exact h3, by rw [h1]; exact h4, ?_⟩
  intro s t ht
  simp only [completeStats, if_neg ht]
  by_cases hgt :
      1 < (if update_streak s.last_completion_date t = 0 ∧
             s.last_completion_date ≠ some t then 1 else s.current_streak + 1)
  · simp [hgt]
  · simp [hgt]

/-- C7 witness: the general bonus equation at concrete stats
(last completion on day 3, completing on day 7). -/
theorem c7_streak_and_points_witness :
    (completeStats 7 (⟨0, 0, some 3⟩ : UserStats)).total_points =
      (⟨0, 0, some 3⟩ : UserStats).total_points + POINTS_PER_TASK +
        (if 1 < (completeStats 7 (⟨0, 0, some 3⟩ : UserStats)).current_streak then
           min MAX_STREAK_BONUS_POINTS
             ((completeStats 7 (⟨0, 0, some 3⟩ : UserStats)).current_streak - 1)
         else 0) :=
  (c7_streak_and_points 0).2.2.2.2 ⟨0, 0, some 3⟩ 7 (by decide)

/-- C8: for the first exam found under the given id, with chapters "1-5"
and exam date three days from today (`days_left() = 3`), the revision
plan is exactly three day-buckets [1,2], [3,4], [5] (per_day =
ceil(5/3) = 2), whose concatenation covers chapters 1..5 with no chapter
omitted or duplicated. -/
theorem c8_revision_plan_buckets (p : PlanState) (today : ℤ) (eid : String) (e : Exam)
    (hfind : p.exams.find? (fun x => x.id == eid) = some e)
    (hch : e.chapters = "1-5") (hdate : e.exam_date = some (today + 3)) :
    get_revision_plan today eid p =
      .plan e.name [[.num 1, .num 2], [.num 3, .num 4], [.num 5]] ∧
    ([[ChapterItem.num 1, .num 2], [.num 3, .num 4], [.num 5]] :
        List (List ChapterItem)).foldr (· ++ ·) [] =
      (intRange 1 5).map ChapterItem.num ∧
    ((intRange 1 5).map ChapterItem.num).Nodup := by
  refine ⟨?_, by decide, by decide⟩
  have hdl : days_left today e = some 3 := by
    simp [days_left, hdate]
  simp only [get_revision_plan, hfind, hdl, hch]
  rfl

/-- C8 witness: the bucket layout at the concrete plan `planC8`. -/
theorem c8_revision_plan_buckets_witness :
    get_revision_plan 0 "e1" planC8 =
      .plan examC8.name [[.num 1, .num 2], [.num 3, .num 4], [.num 5]] ∧
    ([[ChapterItem.num 1, .num 2], [.num 3, .num 4], [.num 5]] :
        List (List ChapterItem)).foldr (· ++ ·) [] =
      (intRange 1 5).map ChapterItem.num ∧
    ((intRange 1 5).map ChapterItem.num).Nodup :=
  c8_revision_plan_buckets planC8 0 "e1" examC8 (by decide) (by decide) (by decide)

/-- C9 counterexample: with one subject of 0.5 hours/week (total weight
0.5) and hours_per_day = 4, the code allocates
max(15, int(4·60·0.5/max(0.5,1))) = 120 minutes, while the claim's
formula (share = hours / total weight, i.e. 0.5/0.5 = 1) demands 240 —
the claim omits the divisor clamp `max(total, 1)`. -/
theorem c9_counterexample_small_total :
    suggest_daily_schedule 4 [halfSubject] = some [("A", 120)] ∧
    claimDailyMinutes 4 [halfSubject] halfSubject = 240 ∧
    (120 : ℤ) ≠ 240 := by
  refine ⟨?_, ?_, by decide⟩
  · norm_num [suggest_daily_schedule, sortSubjects, insertSubject, dailyTotal,
      dailyMinutes, pyTruncRat, halfSubject, max_def]
  · norm_num [claimDailyMinutes, claimTotalWeight, halfSubject]

/-- C9 (amended): for every non-empty subject list (nonnegative hours,
nonnegative hours_per_day), each subject gets
max(15, floor(hours_per_day × 60 × share)) minutes with
share = (hours_per_week or 1 if zero) / max(total, 1), total being the
hours sum or len·2 when that sum is zero; in particular A(6h,P1),
B(2h,P2) at 4 h/day get 180 and 60 minutes, summing to exactly 240. -/
theorem c9_amended_schedule :
    (∀ (subs : List Subject) (hpd : ℚ), subs ≠ [] → 0 ≤ hpd →
        (∀ s ∈ subs, 0 ≤ s.hours_per_week) →
        suggest_daily_schedule hpd subs =
          some ((sortSubjects subs).map
            (fun s => (s.name, amendedDailyMinutes hpd subs s)))) ∧
    suggest_daily_schedule 4 [subjectA, subjectB] = some [("A", 180), ("B", 60)] ∧
    (180 : ℤ) + 60 = 4 * 60 := by
  refine ⟨?_, ?_, by decide⟩
  case refine_2 =>
    norm_num [suggest_daily_schedule, sortSubjects, insertSubject, subjectKeyLE,
      dailyTotal, dailyMinutes, pyTruncRat, subjectA, subjectB, max_def]
  intro subs hpd hne hhpd hpos
  match subs, hne with
  | u :: us, _ =>
    simp only [suggest_daily_schedule, List.isEmpty_cons, Bool.false_eq_true, if_false,
      Option.some.injEq]
    apply List.map_congr_left
    intro s hs
    have hsm : s ∈ u :: us := mem_of_mem_sortSubjects hs
    have hnum : (0 : ℚ) ≤ (if s.hours_per_week = 0 then 1 else s.hours_per_week) := by
      split
      · norm_num
      · exact hpos s hsm
    have hden : (0 : ℚ) ≤ max (dailyTotal (u :: us)) 1 :=
      le_trans zero_le_one (le_max_right _ _)
    have hx : (0 : ℚ) ≤ hpd * 60 *
        ((if s.hours_per_week = 0 then 1 else s.hours_per_week) /
          max (dailyTotal (u :: us)) 1) :=
      mul_nonneg (mul_nonneg hhpd (by norm_num)) (div_nonneg hnum hden)
    simp only [dailyMinutes, amendedDailyMinutes, pyTruncRat_eq_floor hx]

/-- C9 witness: the amended general formula at the spec's two-subject
example. -/
theorem c9_amended_schedule_witness :
    suggest_daily_schedule 4 [subjectA, subjectB] =
      some ((sortSubjects [subjectA, subjectB]).map
        (fun s => (s.name, amendedDailyMinutes 4 [subjectA, subjectB] s))) :=
  c9_amended_schedule.1 [subjectA, subjectB] 4 (by decide) (by norm_num)
    (by intro s hs; fin_cases hs <;> norm_num [subjectA, subjectB])

/-- C10 counterexample: adding a subject named "Math" twice yields two
subjects with the same name — subject names are not pairwise distinct in
reachable states. -/
theorem c10_counterexample_duplicate_names :
    ((add_subject "Math" 5 1 none "general"
        (add_subject "Math" 5 1 none "general" emptyPlan).1).1.subjects.map
      Subject.name) = ["Math", "Math"] ∧
    ¬ (["Math", "Math"] : List String).Pairwise (fun a b => a ≠ b) := by
  refine ⟨by decide, by decide⟩

/-- C10 (amended): `add_subject` performs no uniqueness check — it always
appends one subject with exactly the given fields, so adding a name
already present increases that name's multiplicity by one (name is not
an enforced unique key). -/
theorem c10_amended_append (p : PlanState) (name : String) (hours : ℚ) (priority : ℤ)
    (deadline : Option String) (subject_type : String) :
    (add_subject name hours priority deadline subject_type p).1.subjects =
      p.subjects ++ [⟨name, hours, priority, deadline, subject_type⟩] ∧
    (add_subject name hours priority deadline subject_type p).1.subjects.countP
        (fun s => s.name == name) =
      p.subjects.countP (fun s => s.name == name) + 1 := by
  refine ⟨rfl, ?_⟩
  show (p.subjects ++ [(⟨name, hours, priority, deadline, subject_type⟩ : Subject)]).countP
      (fun s => s.name == name) =
    p.subjects.countP (fun s => s.name == name) + 1
  rw [List.countP_append]
  simp

end StudyPlannerBot
